import Mathlib

/-!
Verification of the DJ transition engine (backend/app): the Camelot-wheel
compatibility functions (`analysis/camelot.py`), the compatibility scorer
(`analysis/engine.py`), the rule-based decision engine
(`strategist/fallback.py`) and the render pipeline (`renderer/engine.py`).

Modelling conventions:
* Python `float` values are modelled as exact rationals (`ℚ`); `int` as `ℤ`.
* Python's built-in `round(x, n)` is modelled as round-half-to-even on the
  exact rational value (`pyRound`).
* Python `int(s)` applied to the digit substrings occurring in wheel codes is
  modelled by `pyInt` (they agree on all optionally-signed digit strings,
  which covers every wheel-code prefix).
* Python `%` on integers with a positive modulus agrees with `Int.emod`.
-/

namespace DJ

/-- `KEY_TO_CAMELOT` from `analysis/camelot.py`, in source order
(long key names first, then the short forms). -/
def KEY_TO_CAMELOT : List (String × String) :=
  [("C major", "8B"), ("Db major", "3B"), ("D major", "10B"), ("Eb major", "5B"),
   ("E major", "12B"), ("F major", "7B"), ("F# major", "2B"), ("Gb major", "2B"),
   ("G major", "9B"), ("Ab major", "4B"), ("A major", "11B"), ("Bb major", "6B"),
   ("B major", "1B"),
   ("C minor", "5A"), ("C# minor", "12A"), ("Db minor", "12A"), ("D minor", "7A"),
   ("Eb minor", "2A"), ("E minor", "9A"), ("F minor", "4A"), ("F# minor", "11A"),
   ("Gb minor", "11A"), ("G minor", "6A"), ("G# minor", "1A"), ("Ab minor", "1A"),
   ("A minor", "8A"), ("Bb minor", "3A"), ("B minor", "10A"),
   ("C", "8B"), ("Cm", "5A"), ("C#", "3B"), ("C#m", "12A"),
   ("Db", "3B"), ("Dbm", "12A"), ("D", "10B"), ("Dm", "7A"),
   ("D#", "5B"), ("D#m", "2A"), ("Eb", "5B"), ("Ebm", "2A"),
   ("E", "12B"), ("Em", "9A"), ("F", "7B"), ("Fm", "4A"),
   ("F#", "2B"), ("F#m", "11A"), ("Gb", "2B"), ("Gbm", "11A"),
   ("G", "9B"), ("Gm", "6A"), ("G#", "4B"), ("G#m", "1A"),
   ("Ab", "4B"), ("Abm", "1A"), ("A", "11B"), ("Am", "8A"),
   ("A#", "6B"), ("A#m", "3A"), ("Bb", "6B"), ("Bbm", "3A"),
   ("B", "1B"), ("Bm", "10A")]

/-- `key_to_camelot`: dictionary lookup with default `"?"`. -/
def key_to_camelot (key : String) : String :=
  match KEY_TO_CAMELOT.lookup key with
  | some c => c
  | none => "?"

/-- The set of wheel codes appearing in the Camelot table (the values of
`KEY_TO_CAMELOT`, without repetition). -/
def camelotTableCodes : List String :=
  (KEY_TO_CAMELOT.map Prod.snd).dedup

/-- Decimal-digit run to a number; `none` on the empty list or a non-digit
(the cases where Python `int` raises `ValueError`). -/
def digitsToNat (cs : List Char) : Option Nat :=
  if cs.isEmpty then none
  else
    cs.foldl
      (fun acc c =>
        match acc with
        | some n => if c.isDigit then some (10 * n + (c.toNat - 48)) else none
        | none => none)
      (some 0)

/-- Python `int(s)` on the strings reachable here: an optional sign followed
by decimal digits (the whitespace / underscore forms Python also accepts do
not occur in wheel codes). -/
def pyInt (s : String) : Option Int :=
  match s.data with
  | '-' :: rest => (digitsToNat rest).map (fun n => -(n : Int))
  | '+' :: rest => (digitsToNat rest).map (fun n => (n : Int))
  | cs => (digitsToNat cs).map (fun n => (n : Int))

/-- The parse performed by `camelot_distance`: `int(cam[:-1])` paired with
`cam[-1]`, `none` when either raises (`ValueError` / `IndexError`). -/
def parseCamelot (s : String) : Option (Int × Char) :=
  match pyInt (s.dropRight 1), s.data.getLast? with
  | some n, some c => some (n, c)
  | _, _ => none

/-- `camelot_distance` from `analysis/camelot.py`. -/
def camelot_distance (cam_a cam_b : String) : Int :=
  if cam_a = "?" ∨ cam_b = "?" then -1
  else
    match parseCamelot cam_a, parseCamelot cam_b with
    | some (num_a, letter_a), some (num_b, letter_b) =>
      if letter_a = letter_b then
        -- Same inner/outer ring
        let diff : Int := |num_a - num_b|
        min diff (12 - diff)
      else
        -- Different rings: check if same number (relative major/minor)
        if num_a = num_b then 0
        else
          let diff : Int := |num_a - num_b|
          min diff (12 - diff) + 1
    | _, _ => -1

/-- `camelot_relation` from `analysis/camelot.py`. -/
def camelot_relation (cam_a cam_b : String) : String :=
  let dist := camelot_distance cam_a cam_b
  if dist < 0 then "unknown"
  else if dist = 0 then "same"
  else if dist = 1 then "adjacent"
  else if dist = 2 then "relative"
  else "incompatible"

/-- `harmonic_score` from `analysis/camelot.py` (the `scores` dict lookup with
default `0.05`). -/
def harmonic_score (cam_a cam_b : String) : ℚ :=
  let dist := camelot_distance cam_a cam_b
  if dist < 0 then 1 / 2
  else if dist = 0 then 1
  else if dist = 1 then 17 / 20
  else if dist = 2 then 3 / 5
  else if dist = 3 then 2 / 5
  else if dist = 4 then 1 / 5
  else if dist = 5 then 1 / 10
  else 1 / 20

/-- `_CAMELOT_TO_PITCH` from `analysis/camelot.py`. -/
def CAMELOT_TO_PITCH : List (String × Int) :=
  [("1A", 8), ("2A", 3), ("3A", 10), ("4A", 5), ("5A", 0), ("6A", 7),
   ("7A", 2), ("8A", 9), ("9A", 4), ("10A", 11), ("11A", 6), ("12A", 1),
   ("1B", 11), ("2B", 6), ("3B", 1), ("4B", 8), ("5B", 3), ("6B", 10),
   ("7B", 5), ("8B", 0), ("9B", 7), ("10B", 2), ("11B", 9), ("12B", 4)]

/-- `pitch_shift_to_match` from `analysis/camelot.py`. -/
def pitch_shift_to_match (cam_source cam_target : String) : Int :=
  if camelot_distance cam_source cam_target ≤ 1 then 0
  else
    match CAMELOT_TO_PITCH.lookup cam_source, CAMELOT_TO_PITCH.lookup cam_target with
    | some pitch_src, some pitch_tgt =>
      let diff := (pitch_tgt - pitch_src) % 12
      if diff > 6 then diff - 12 else diff
    | _, _ => 0

/-! Spec-side reference definitions (written from the spec's words, for the
refinement claim about the distance rule). -/

/-- Circular distance between two wheel numbers on a 12-position ring,
as the spec words it: `min(|numA-numB|, 12-|numA-numB|)`. -/
def circularNumberDistance (na nb : Int) : Int :=
  min |na - nb| (12 - |na - nb|)

/-- The spec's wheel-distance rule over parsed codes (number, ring letter),
with `none` for an unknown code: unknown (sentinel) if either is unknown;
same ring ⇒ circular distance; different rings with equal numbers ⇒ 0;
different rings otherwise ⇒ circular distance + 1. -/
def wheelDistanceSpec : Option (Int × Char) → Option (Int × Char) → Int
  | some (na, ra), some (nb, rb) =>
    if ra = rb then circularNumberDistance na nb
    else if na = nb then 0
    else circularNumberDistance na nb + 1
  | _, _ => -1

/-- A code is unknown exactly when it is the sentinel `"?"` or fails to parse
as number-plus-letter. -/
def parsedCode (s : String) : Option (Int × Char) :=
  if s = "?" then none else parseCamelot s

/-! Python's `round` builtin, modelled on exact rationals. -/

/-- Floor of a rational, computed by floor division of numerator by
denominator (the denominator is positive). -/
def ratFloor (q : ℚ) : ℤ :=
  Int.fdiv q.num q.den

/-- Round-half-to-even of a rational to an integer. -/
def roundHalfEven (q : ℚ) : ℤ :=
  let f := ratFloor q
  let r := q - (f : ℚ)
  if r < 1 / 2 then f
  else if 1 / 2 < r then f + 1
  else if f % 2 = 0 then f else f + 1

/-- Python's built-in `round(x, n)` for `n ≥ 0` decimal digits. -/
def pyRound (q : ℚ) (n : ℕ) : ℚ :=
  (roundHalfEven (q * 10 ^ n) : ℚ) / 10 ^ n

/-! Data model: the pydantic contracts of `models/contracts.py`,
floats as `ℚ`, `Optional` as `Option`. -/

structure Phrase where
  start_ms : ℚ
  end_ms : ℚ
  bars : ℤ
  type : String
  avg_energy : ℚ
deriving Repr, DecidableEq

structure EnergyPoint where
  ms : ℚ
  rms : ℚ
deriving Repr, DecidableEq

structure SongAnalysis where
  filename : String
  duration_ms : ℚ
  bpm : ℚ
  bpm_confidence : ℚ
  key : String
  key_confidence : ℚ
  camelot : String
  beats_ms : List ℚ
  downbeats_ms : List ℚ
  phrases : List Phrase
  energy_curve : List EnergyPoint
  bpm_warning : Option String := none
  key_warning : Option String := none
deriving Repr, DecidableEq

/-- The `Union[bool, str]` value of `Compatibility.key_compatible`:
`True`, `False`, or the string `"unknown"`. -/
inductive KeyCompat where
  | ktrue
  | kfalse
  | unknown
deriving Repr, DecidableEq

structure Compatibility where
  bpm_diff : ℚ
  bpm_ratio : ℚ
  key_compatible : KeyCompat
  camelot_distance : ℤ
  camelot_relation : String
  needs_tempo_adjustment : Bool
  recommended_target_bpm : ℚ
  harmonic_mixing_score : ℚ
deriving Repr, DecidableEq

structure ContractA where
  song_a : SongAnalysis
  song_b : SongAnalysis
  compatibility : Compatibility
deriving Repr, DecidableEq

structure SongMixPoint where
  out_point_ms : Option ℚ := none
  in_point_ms : Option ℚ := none
  out_phrase : Option String := none
  in_phrase : Option String := none
  fade_start_ms : Option ℚ := none
  fade_end_ms : Option ℚ := none
  tempo_stretch_factor : ℚ := 1
  pitch_shift_semitones : ℤ := 0
deriving Repr, DecidableEq

structure EQAutomationEntry where
  action : String
  start_ms : ℚ
  end_ms : ℚ
  from_db : ℚ
  to_db : ℚ
  curve : String := "linear"
deriving Repr, DecidableEq

structure EQAutomation where
  song_a_bass : Option EQAutomationEntry := none
  song_b_bass : Option EQAutomationEntry := none
  song_a_highs : Option EQAutomationEntry := none
  song_b_highs : Option EQAutomationEntry := none
  song_a_mids : Option EQAutomationEntry := none
  song_b_mids : Option EQAutomationEntry := none
deriving Repr, DecidableEq

structure Transition where
  total_duration_ms : ℚ
  crossfade_curve : String := "equal_power"
  eq_automation : EQAutomation
deriving Repr, DecidableEq

structure SFXConfig where
  enabled : Bool := false
  type : String := "none"
  trigger_reason : String := ""
  position_ms : ℚ := 0
  duration_ms : ℚ := 4000
  source : String := "library"
  elevenlabs_prompt : String := ""
  fallback_file : String := ""
deriving Repr, DecidableEq

structure MixDecision where
  strategy : String
  confidence : ℚ
  reasoning : String
  song_a : SongMixPoint
  song_b : SongMixPoint
  transition : Transition
  sfx : SFXConfig := {}
  suggestion : Option String := none
deriving Repr, DecidableEq

structure ContractB where
  mix_decision : MixDecision
deriving Repr, DecidableEq

/-! `compute_compatibility` from `analysis/engine.py`. -/

/-- `compute_compatibility`: compatibility metrics between two analyzed
songs. -/
def compute_compatibility (song_a song_b : SongAnalysis) : Compatibility :=
  let bpm_diff := |song_a.bpm - song_b.bpm|
  let bpm_ratio :=
    if 0 < min song_a.bpm song_b.bpm
    then max song_a.bpm song_b.bpm / min song_a.bpm song_b.bpm
    else 1
  let cam_dist := camelot_distance song_a.camelot song_b.camelot
  let cam_rel := camelot_relation song_a.camelot song_b.camelot
  let harm_score := harmonic_score song_a.camelot song_b.camelot
  let key_compat :=
    if song_a.key_confidence < 1 / 2 ∨ song_b.key_confidence < 1 / 2
    then KeyCompat.unknown
    else if cam_dist ≤ 1 then KeyCompat.ktrue else KeyCompat.kfalse
  let needs_tempo_adj := decide (bpm_diff > 2)
  let target_bpm := pyRound ((song_a.bpm + song_b.bpm) / 2) 1
  { bpm_diff := pyRound bpm_diff 1
    bpm_ratio := pyRound bpm_ratio 3
    key_compatible := key_compat
    camelot_distance := cam_dist
    camelot_relation := cam_rel
    needs_tempo_adjustment := needs_tempo_adj
    recommended_target_bpm := target_bpm
    harmonic_mixing_score := pyRound harm_score 2 }

/-! The rule-based decision engine, `strategist/fallback.py`. The local
values of `rule_based_mix` are split into named definitions so that the
theorems can speak about them; `rule_based_mix` composes exactly these. -/

/-- `_nearest_downbeat`: `min(downbeats_ms, key=lambda d: abs(d - target_ms))`
with the input returned unchanged when the list is empty; Python's `min`
keeps the earliest element on ties. -/
def nearest_downbeat (downbeats_ms : List ℚ) (target_ms : ℚ) : ℚ :=
  match downbeats_ms with
  | [] => target_ms
  | d :: ds =>
    ds.foldl (fun best x => if |x - target_ms| < |best - target_ms| then x else best) d

/-- `_phrase_at`: the type of the first phrase whose span contains `ms`. -/
def phrase_at (phrases : List Phrase) (ms : ℚ) : String :=
  match phrases.find? (fun p => decide (p.start_ms ≤ ms ∧ ms ≤ p.end_ms)) with
  | some p => p.type
  | none => "unknown"

/-- Out point of song A: nearest downbeat to the user's marker, or to 75% of
song A's duration. -/
def rb_out_point (c : ContractA) (transition_start_ms : Option ℚ) : ℚ :=
  match transition_start_ms with
  | some t => nearest_downbeat c.song_a.downbeats_ms t
  | none => nearest_downbeat c.song_a.downbeats_ms (c.song_a.duration_ms * (3 / 4))

/-- In point of song B: user override snapped to a downbeat, else the start of
the first intro/verse/breakdown phrase, else 0. -/
def rb_in_point (c : ContractA) (song_b_in_point_ms : Option ℚ) : ℚ :=
  match song_b_in_point_ms with
  | some t => nearest_downbeat c.song_b.downbeats_ms t
  | none =>
    match c.song_b.phrases.find?
        (fun p => p.type == "intro" || p.type == "verse" || p.type == "breakdown") with
    | some p => p.start_ms
    | none => 0

/-- Transition duration before clamping: 8 bars of 4 beats at the recommended
target BPM, in milliseconds. -/
def rb_initial_duration (c : ContractA) : ℚ :=
  let ms_per_bar := 4 * 60000 / c.compatibility.recommended_target_bpm
  ms_per_bar * 8

/-- Transition duration after the clamp against song A's duration. -/
def rb_transition_duration (c : ContractA) (transition_start_ms : Option ℚ) : ℚ :=
  if rb_out_point c transition_start_ms + rb_initial_duration c > c.song_a.duration_ms
  then c.song_a.duration_ms - rb_out_point c transition_start_ms
  else rb_initial_duration c

/-- Tempo-stretch factor of song A (before the contract's 4-digit round). -/
def rb_stretch_a (c : ContractA) : ℚ :=
  if c.compatibility.needs_tempo_adjustment
  then c.compatibility.recommended_target_bpm / c.song_a.bpm
  else 1

/-- Tempo-stretch factor of song B (before the contract's 4-digit round). -/
def rb_stretch_b (c : ContractA) : ℚ :=
  if c.compatibility.needs_tempo_adjustment
  then c.compatibility.recommended_target_bpm / c.song_b.bpm
  else 1

/-- Pitch shift applied to song B when key matching is requested and the keys
are neither compatible nor unknown. -/
def rb_pitch_shift_b (c : ContractA) (mix_in_key : Bool) : ℤ :=
  if mix_in_key ∧ c.compatibility.key_compatible ≠ KeyCompat.ktrue
      ∧ c.compatibility.key_compatible ≠ KeyCompat.unknown
  then pitch_shift_to_match c.song_b.camelot c.song_a.camelot
  else 0

/-- The bass-swap EQ automation pair built by `rule_based_mix`: song A
timestamps are absolute, song B timestamps are relative to its in point. -/
def rb_eq (out_point transition_duration : ℚ) : EQAutomation :=
  { song_a_bass := some
      { action := "cut"
        start_ms := out_point
        end_ms := out_point + transition_duration / 2
        from_db := 0
        to_db := -24
        curve := "linear" }
    song_b_bass := some
      { action := "boost"
        start_ms := transition_duration / 2
        end_ms := transition_duration
        from_db := -24
        to_db := 0
        curve := "linear" } }

/-- `rule_based_mix` from `strategist/fallback.py`. The reasoning f-string's
float formatting is modelled by `toString` on the exact rationals. -/
def rule_based_mix (contract_a : ContractA) (transition_start_ms : Option ℚ)
    (mix_in_key : Bool) (song_b_in_point_ms : Option ℚ) : ContractB :=
  let sa := contract_a.song_a
  let sb := contract_a.song_b
  let compat := contract_a.compatibility
  let out_point := rb_out_point contract_a transition_start_ms
  let in_point := rb_in_point contract_a song_b_in_point_ms
  let target_bpm := compat.recommended_target_bpm
  let transition_duration := rb_transition_duration contract_a transition_start_ms
  let stretch_a := rb_stretch_a contract_a
  let stretch_b := rb_stretch_b contract_a
  let pitch_shift_b := rb_pitch_shift_b contract_a mix_in_key
  let key_note :=
    if pitch_shift_b ≠ 0
    then " Song B pitch-shifted by " ++ toString pitch_shift_b
          ++ " semitones for key compatibility."
    else ""
  let eq := rb_eq out_point transition_duration
  let reasoning :=
    "Rule-based fallback (AI unavailable). 8-bar linear crossfade with bass swap. BPM difference: "
      ++ toString compat.bpm_diff ++ ". Target BPM: " ++ toString target_bpm
      ++ ". Key compatibility: " ++ compat.camelot_relation ++ "." ++ key_note
  { mix_decision :=
    { strategy := "bass_swap"
      confidence := 1 / 2
      reasoning := reasoning
      song_a :=
        { out_point_ms := some (pyRound out_point 1)
          out_phrase := some (phrase_at sa.phrases out_point)
          fade_start_ms := some (pyRound out_point 1)
          tempo_stretch_factor := pyRound stretch_a 4 }
      song_b :=
        { in_point_ms := some (pyRound in_point 1)
          in_phrase := some (phrase_at sb.phrases in_point)
          fade_end_ms := some (pyRound (in_point + transition_duration) 1)
          tempo_stretch_factor := pyRound stretch_b 4
          pitch_shift_semitones := pitch_shift_b }
      transition :=
        { total_duration_ms := pyRound transition_duration 1
          crossfade_curve := "linear"
          eq_automation := eq }
      sfx := { enabled := false } } }

/-! The render pipeline, `renderer/engine.py`. The Media Transform Executor
(FFmpeg / rubberband subprocess calls) is abstracted as an oracle
`exec : RenderOp → Bool` saying which transform invocations succeed; the
pipeline is modelled by the ordered list of transform operations it issues,
and a run returns `Except.error ()` when any issued operation fails
(mirroring the exception that triggers the fallback path). -/

/-- One abstract transform request issued to the external executor, with the
parameters the claims are about. -/
inductive RenderOp where
  | ensureWav (src : String) (dst : String)
  | extractSegment (src : String) (startMs : ℚ) (endMs : Option ℚ)
  | applyEq (song : String) (bands : List String)
  | timeStretch (factor : ℚ)
  | pitchShiftOp (semitones : ℤ)
  | crossfadeOp (durMs : ℚ) (curveType : String)
  | overlaySfx (positionMs : ℚ)
  | loudnormEncodeMp3
  | loudnormEncodeWav
deriving Repr, DecidableEq

/-- Python's `a or b` on an optional float: `None` and `0.0` are falsy. -/
def pyOrQ (a : Option ℚ) (b : ℚ) : ℚ :=
  match a with
  | some x => if x = 0 then b else x
  | none => b

/-- Whether `_eq_filter_for_band` produces a filter for an entry: the window,
shifted by the offset and with a negative start clamped to 0, must have
positive duration (seconds). -/
def eqFilterActive (entry : EQAutomationEntry) (offset_ms : ℚ) : Bool :=
  let start_s := max ((entry.start_ms - offset_ms) / 1000) 0
  let end_s := (entry.end_ms - offset_ms) / 1000
  decide (0 < end_s - start_s)

/-- The bands for which `_apply_eq_automation` emits filters, in the source's
dict order bass, highs, mids; the FFmpeg call is issued only when this list
is nonempty. -/
def activeBands (bass highs mids : Option EQAutomationEntry) (offset_ms : ℚ) :
    List String :=
  (match bass with
   | some e => if eqFilterActive e offset_ms then ["bass"] else []
   | none => []) ++
  (match highs with
   | some e => if eqFilterActive e offset_ms then ["highs"] else []
   | none => []) ++
  (match mids with
   | some e => if eqFilterActive e offset_ms then ["mids"] else []
   | none => [])

/-- The `acrossfade` curve name chosen from the plan's curve:
equal_power ⇒ esin, exponential ⇒ exp, else tri (linear). -/
def curveType (curve : String) : String :=
  if curve = "equal_power" then "esin"
  else if curve = "exponential" then "exp"
  else "tri"

/-- The original-tempo span of the transition window on song A:
`trans_dur * sa_sf` when a stretch factor applies, else `trans_dur`. -/
def orig_trans_dur_a (trans_dur sa_sf : ℚ) : ℚ :=
  if sa_sf ≠ 1 then trans_dur * sa_sf else trans_dur

/-- The end of the segment extracted from song A:
`fade_start + orig_trans_dur_a`. -/
def seg_a_end_ms (fade_start trans_dur sa_sf : ℚ) : ℚ :=
  fade_start + orig_trans_dur_a trans_dur sa_sf

/-- The ordered operation sequence of the primary render path (steps 1-9 of
`render_mix`); `sfx_resolved` is the outcome of the best-effort SFX Provider
resolution (a `None` result skips the overlay without failing). -/
def primary_ops (md : MixDecision) (song_a_path song_b_path : String)
    (sfx_resolved : Bool) : List RenderOp :=
  let fade_start := pyOrQ md.song_a.fade_start_ms (pyOrQ md.song_a.out_point_ms 0)
  let in_point := pyOrQ md.song_b.in_point_ms 0
  let trans_dur := md.transition.total_duration_ms
  let sa_sf := md.song_a.tempo_stretch_factor
  let sb_sf := md.song_b.tempo_stretch_factor
  let bands_a := activeBands md.transition.eq_automation.song_a_bass
      md.transition.eq_automation.song_a_highs md.transition.eq_automation.song_a_mids 0
  let bands_b := activeBands md.transition.eq_automation.song_b_bass
      md.transition.eq_automation.song_b_highs md.transition.eq_automation.song_b_mids 0
  [RenderOp.ensureWav song_a_path "a_full.wav",
   RenderOp.ensureWav song_b_path "b_full.wav",
   RenderOp.extractSegment "a_full.wav" 0 (some (seg_a_end_ms fade_start trans_dur sa_sf)),
   RenderOp.extractSegment "b_full.wav" in_point none]
  ++ (if bands_a.isEmpty then [] else [RenderOp.applyEq "a" bands_a])
  ++ (if bands_b.isEmpty then [] else [RenderOp.applyEq "b" bands_b])
  ++ (if sa_sf ≠ 1 then [RenderOp.timeStretch sa_sf] else [])
  ++ (if sb_sf ≠ 1 then [RenderOp.timeStretch sb_sf] else [])
  ++ (if md.song_a.pitch_shift_semitones ≠ 0
      then [RenderOp.pitchShiftOp md.song_a.pitch_shift_semitones] else [])
  ++ (if md.song_b.pitch_shift_semitones ≠ 0
      then [RenderOp.pitchShiftOp md.song_b.pitch_shift_semitones] else [])
  ++ [RenderOp.crossfadeOp trans_dur (curveType md.transition.crossfade_curve)]
  ++ (if md.sfx.enabled ∧ sfx_resolved
      then [RenderOp.overlaySfx md.sfx.position_ms] else [])
  ++ [RenderOp.loudnormEncodeMp3, RenderOp.loudnormEncodeWav]

/-- The operation sequence of `_simplified_render`: song A untouched, song B
re-extracted from its in point when positive, fixed linear (`tri`) crossfade
over the plan's total duration, loudness-normalized MP3 encode. -/
def fallback_ops (md : MixDecision) (song_a_path song_b_path : String) :
    List RenderOp :=
  let in_point := pyOrQ md.song_b.in_point_ms 0
  [RenderOp.ensureWav song_a_path "simple_a.wav",
   RenderOp.ensureWav song_b_path "simple_b.wav"]
  ++ (if 0 < in_point then [RenderOp.extractSegment "simple_b.wav" in_point none] else [])
  ++ [RenderOp.crossfadeOp md.transition.total_duration_ms "tri",
      RenderOp.loudnormEncodeMp3]

/-- Run a list of transform operations against the executor oracle: the trace
is returned if every operation succeeds, otherwise the run fails (the first
failing subprocess raises). -/
def runOps (exec : RenderOp → Bool) (ops : List RenderOp) :
    Except Unit (List RenderOp) :=
  if ops.all exec then Except.ok ops else Except.error ()

/-- Whether a run produced an artifact. -/
def renderOk (r : Except Unit (List RenderOp)) : Bool :=
  match r with
  | Except.ok _ => true
  | Except.error _ => false

/-- `render_mix`: the primary path, with any stage failure caught and the
whole render retried through `_simplified_render`. -/
def render_mix (exec : RenderOp → Bool) (contract_b : ContractB)
    (song_a_path song_b_path : String) (sfx_resolved : Bool) :
    Except Unit (List RenderOp) :=
  match runOps exec (primary_ops contract_b.mix_decision song_a_path song_b_path sfx_resolved) with
  | Except.ok t => Except.ok t
  | Except.error _ => runOps exec (fallback_ops contract_b.mix_decision song_a_path song_b_path)

/-- Operations the fallback path must never issue: EQ automation,
time-stretch, pitch-shift, SFX overlay. -/
def isTransformExtraOp : RenderOp → Bool
  | RenderOp.applyEq _ _ => true
  | RenderOp.timeStretch _ => true
  | RenderOp.pitchShiftOp _ => true
  | RenderOp.overlaySfx _ => true
  | _ => false

/-! Concrete sample inputs used by the witnesses and counterexamples. -/

/-- Sample song A: 128 BPM, A minor (8A), one downbeat at 180000 ms. -/
def songA128 : SongAnalysis :=
  { filename := "a.mp3", duration_ms := 240000, bpm := 128,
    bpm_confidence := 9 / 10, key := "Am", key_confidence := 8 / 10,
    camelot := "8A", beats_ms := [], downbeats_ms := [180000],
    phrases := [], energy_curve := [] }

/-- Sample song B: 120 BPM, E minor (9A). -/
def songB120 : SongAnalysis :=
  { filename := "b.mp3", duration_ms := 200000, bpm := 120,
    bpm_confidence := 85 / 100, key := "Em", key_confidence := 75 / 100,
    camelot := "9A", beats_ms := [], downbeats_ms := [0],
    phrases := [], energy_curve := [] }

/-- Contract pairing `songA128` with `songB120`: BPM gap 8 > 2, so the
compatibility engine flags tempo adjustment. -/
def contract128_120 : ContractA :=
  { song_a := songA128, song_b := songB120,
    compatibility := compute_compatibility songA128 songB120 }

/-- Edge-case song A: duration 200.3 ms, single downbeat at 100.15 ms
(both within the valid range). -/
def songAEdge : SongAnalysis :=
  { filename := "a.mp3", duration_ms := 2003 / 10, bpm := 120,
    bpm_confidence := 9 / 10, key := "Am", key_confidence := 8 / 10,
    camelot := "8A", beats_ms := [], downbeats_ms := [2003 / 20],
    phrases := [], energy_curve := [] }

/-- Contract pairing `songAEdge` with `songB120` (equal BPM, target 120). -/
def contractEdge : ContractA :=
  { song_a := songAEdge, song_b := songB120,
    compatibility := compute_compatibility songAEdge songB120 }

/-- Sample song with a confidently detected but unrecognized key, whose
wheel code is the unknown sentinel. -/
def songUnknownKey : SongAnalysis :=
  { filename := "u.mp3", duration_ms := 240000, bpm := 128,
    bpm_confidence := 9 / 10, key := "X#dim7", key_confidence := 8 / 10,
    camelot := "?", beats_ms := [], downbeats_ms := [0],
    phrases := [], energy_curve := [] }

/-- An executor oracle on which every transform succeeds. -/
def execAll : RenderOp → Bool := fun _ => true

/-- A concrete plan: the rule-based decision for `contract128_120`. -/
def sampleContractB : ContractB := rule_based_mix contract128_120 none false none

end DJ

namespace DJ

section

attribute [local semireducible] Rat.mul Rat.inv Rat.add Rat.sub Rat.ofScientific

/-! Helper lemmas shared by the claim theorems. -/

/-- Projection: the plan's song A stretch factor is the 4-digit round of
`rb_stretch_a`. -/
theorem rule_based_mix_stretch_a (c : ContractA) (ts sbi : Option ℚ) (mik : Bool) :
    (rule_based_mix c ts mik sbi).mix_decision.song_a.tempo_stretch_factor
      = pyRound (rb_stretch_a c) 4 := rfl

/-- Projection: the plan's song B stretch factor is the 4-digit round of
`rb_stretch_b`. -/
theorem rule_based_mix_stretch_b (c : ContractA) (ts sbi : Option ℚ) (mik : Bool) :
    (rule_based_mix c ts mik sbi).mix_decision.song_b.tempo_stretch_factor
      = pyRound (rb_stretch_b c) 4 := rfl

/-- The tempo-adjustment flag is exactly the BPM-gap test. -/
theorem compute_needs_flag (sa sb : SongAnalysis) :
    (compute_compatibility sa sb).needs_tempo_adjustment
      = decide (2 < |sa.bpm - sb.bpm|) := rfl

/-- Rounding 1.0 to four decimal digits returns exactly 1.0. -/
theorem pyRound_one : pyRound 1 4 = 1 := by decide

/-- The explicit floor-division floor agrees with the mathematical floor. -/
theorem ratFloor_eq_floor (q : ℚ) : ratFloor q = ⌊q⌋ := by
  rw [ratFloor, Int.fdiv_eq_ediv _ (Int.natCast_nonneg q.den)]
  exact Rat.floor_def.symm

/-- Round-half-to-even never rounds up by more than one half. -/
theorem roundHalfEven_le (q : ℚ) : (roundHalfEven q : ℚ) ≤ q + 1 / 2 := by
  have hf : ((ratFloor q : ℤ) : ℚ) ≤ q := by
    rw [ratFloor_eq_floor]; exact Int.floor_le q
  simp only [roundHalfEven]
  split_ifs with h1 h2 h3
  · linarith
  · push_cast
    linarith
  · linarith
  · push_cast
    linarith [not_lt.mp h1]

/-- Rounding to one decimal digit increases a value by at most 0.05. -/
theorem pyRound_le_digit1 (q : ℚ) : pyRound q 1 ≤ q + 1 / 20 := by
  unfold pyRound
  have h := roundHalfEven_le (q * 10 ^ 1)
  rw [div_le_iff₀ (by norm_num : (0:ℚ) < 10 ^ 1)]
  push_cast at h ⊢
  linarith

/-- C1 (counterexample): the recognized codes "1A" and "7B" are both in the
Camelot table, yet `camelot_distance "1A" "7B" = 7`, outside the claimed
range 0..6. -/
theorem C1_counterexample :
    "1A" ∈ camelotTableCodes ∧ "7B" ∈ camelotTableCodes ∧
    camelot_distance "1A" "7B" = 7 ∧ ¬ camelot_distance "1A" "7B" ≤ 6 := by
  decide

/-- C1 (amended): for every pair of codes in the Camelot table,
`camelot_distance` returns an integer in 0..7 (7 occurs for cross-ring codes
whose numbers are 6 apart), and never the unknown sentinel -1. -/
theorem C1_wheel_distance_range (a b : String)
    (ha : a ∈ camelotTableCodes) (hb : b ∈ camelotTableCodes) :
    0 ≤ camelot_distance a b ∧ camelot_distance a b ≤ 7 ∧
    camelot_distance a b ≠ -1 := by
  have h : ∀ x ∈ camelotTableCodes, ∀ y ∈ camelotTableCodes,
      0 ≤ camelot_distance x y ∧ camelot_distance x y ≤ 7 := by decide
  obtain ⟨h1, h2⟩ := h a ha b hb
  exact ⟨h1, h2, by omega⟩

/-- C1 (witness): the range theorem applied at the concrete pair
("8A", "8B"). -/
theorem C1_wheel_distance_range_witness :
    0 ≤ camelot_distance "8A" "8B" ∧ camelot_distance "8A" "8B" ≤ 7 ∧
    camelot_distance "8A" "8B" ≠ -1 :=
  C1_wheel_distance_range "8A" "8B" (by decide) (by decide)

/-- C2 (counterexample): "8B" and "2B" are recognized, their wheel distance is
6 > 1, the two circular directions tie at exactly 6 semitones
(`(pitch("2B") - pitch("8B")) mod 12 = 6`), and `pitch_shift_to_match`
returns the upward shift +6, not the claimed downward -6. -/
theorem C2_counterexample :
    1 < camelot_distance "8B" "2B" ∧
    ((CAMELOT_TO_PITCH.lookup "2B").getD 0
      - (CAMELOT_TO_PITCH.lookup "8B").getD 0) % 12 = 6 ∧
    pitch_shift_to_match "8B" "2B" = 6 ∧
    pitch_shift_to_match "8B" "2B" ≠ -6 := by
  decide

/-- C2 (amended): for recognized codes, `pitch_shift_to_match` returns 0 when
the wheel distance is at most 1; otherwise it returns
`(pitchClass(target) - pitchClass(source)) mod 12`, reduced by 12 only when
that value strictly exceeds 6 (so a tie at exactly 6 semitones yields the
upward shift +6), and the result always lies in [-6, 6]. -/
theorem C2_pitch_shift (a b : String)
    (ha : a ∈ camelotTableCodes) (hb : b ∈ camelotTableCodes) :
    (camelot_distance a b ≤ 1 → pitch_shift_to_match a b = 0) ∧
    (1 < camelot_distance a b →
      pitch_shift_to_match a b =
        (let d := ((CAMELOT_TO_PITCH.lookup b).getD 0
                    - (CAMELOT_TO_PITCH.lookup a).getD 0) % 12
         if d > 6 then d - 12 else d) ∧
      -6 ≤ pitch_shift_to_match a b ∧ pitch_shift_to_match a b ≤ 6) := by
  have h : ∀ x ∈ camelotTableCodes, ∀ y ∈ camelotTableCodes,
      (camelot_distance x y ≤ 1 → pitch_shift_to_match x y = 0) ∧
      (1 < camelot_distance x y →
        pitch_shift_to_match x y =
          (let d := ((CAMELOT_TO_PITCH.lookup y).getD 0
                      - (CAMELOT_TO_PITCH.lookup x).getD 0) % 12
           if d > 6 then d - 12 else d) ∧
        -6 ≤ pitch_shift_to_match x y ∧ pitch_shift_to_match x y ≤ 6) := by
    decide
  exact h a ha b hb

/-- C2 (witness): the pitch-shift theorem applied at the concrete pair
("8A", "12A"). -/
theorem C2_pitch_shift_witness :
    (camelot_distance "8A" "12A" ≤ 1 → pitch_shift_to_match "8A" "12A" = 0) ∧
    (1 < camelot_distance "8A" "12A" →
      pitch_shift_to_match "8A" "12A" =
        (let d := ((CAMELOT_TO_PITCH.lookup "12A").getD 0
                    - (CAMELOT_TO_PITCH.lookup "8A").getD 0) % 12
         if d > 6 then d - 12 else d) ∧
      -6 ≤ pitch_shift_to_match "8A" "12A" ∧
      pitch_shift_to_match "8A" "12A" ≤ 6) :=
  C2_pitch_shift "8A" "12A" (by decide) (by decide)

/-- C3 (counterexample): "8A" and "10A" lie on the same ring, so their
distance is the plain circular distance 2, not circular distance + 1 = 3 as
the claim (reading them as a cross-ring pair) asserts. -/
theorem C3_counterexample :
    camelot_distance "8A" "10A" = 2 ∧
    circularNumberDistance 8 10 + 1 = 3 ∧
    camelot_distance "8A" "10A" ≠ circularNumberDistance 8 10 + 1 := by
  decide

/-- C4: for every pair of code strings, `camelot_distance` follows the spec's
distance rule exactly: the unknown sentinel when either code is unknown
(the "?" sentinel or an unparseable string); same ring gives
`min(|numA-numB|, 12-|numA-numB|)`; different rings with equal numbers give
0; different rings with unequal numbers give the circular number distance
plus 1. -/
theorem C4_distance_rule (a b : String) :
    camelot_distance a b = wheelDistanceSpec (parsedCode a) (parsedCode b) := by
  unfold camelot_distance wheelDistanceSpec parsedCode
  by_cases ha : a = "?"
  · simp only [ha, true_or, if_true, if_pos]
  · by_cases hb : b = "?"
    · simp only [hb, or_true, if_true, if_neg ha]
      cases parseCamelot a with
      | none => rfl
      | some pa => obtain ⟨na, ra⟩ := pa; rfl
    · have hor : ¬(a = "?" ∨ b = "?") := by tauto
      simp only [if_neg hor, if_neg ha, if_neg hb]
      cases parseCamelot a with
      | none =>
        cases parseCamelot b with
        | none => rfl
        | some pb => obtain ⟨nb, rb⟩ := pb; rfl
      | some pa =>
        cases parseCamelot b with
        | none => obtain ⟨na, ra⟩ := pa; rfl
        | some pb =>
          obtain ⟨na, ra⟩ := pa; obtain ⟨nb, rb⟩ := pb; rfl

/-- C3 (amended): `camelot_distance "8A" "8B" = 0` (relative pairing);
"8A" and "10A" are same-ring, so their distance is the circular number
distance 2 with no penalty; a genuinely cross-ring pair with unequal numbers
such as ("8A", "10B") gets the circular number distance plus 1. -/
theorem C3_examples :
    camelot_distance "8A" "8B" = 0 ∧
    camelot_distance "8A" "10A" = circularNumberDistance 8 10 ∧
    camelot_distance "8A" "10B" = circularNumberDistance 8 10 + 1 := by
  decide

/-- C5 (counterexample): on the contract pairing 128 BPM with 120 BPM the
engine flags tempo adjustment, but the emitted plan's song A stretch factor
(124/128 rounded to four decimal digits, 0.9688) is not equal to
targetBPM / songA.bpm = 0.96875, contradicting the claimed exact equality. -/
theorem C5_counterexample :
    contract128_120.compatibility.needs_tempo_adjustment = true ∧
    (rule_based_mix contract128_120 none false none).mix_decision.song_a.tempo_stretch_factor
      ≠ contract128_120.compatibility.recommended_target_bpm / contract128_120.song_a.bpm := by
  decide

/-- C5 (amended): when the BPM gap exceeds 2.0 the plan's stretch factors are
targetBPM / thatSong'sBPM rounded half-to-even to four decimal digits; when
the gap is at most 2.0 both factors are exactly 1.0. -/
theorem C5_stretch_factors (sa sb : SongAnalysis) (ts sbi : Option ℚ) (mik : Bool) :
    (2 < |sa.bpm - sb.bpm| →
      (rule_based_mix ⟨sa, sb, compute_compatibility sa sb⟩ ts mik sbi).mix_decision.song_a.tempo_stretch_factor
        = pyRound ((compute_compatibility sa sb).recommended_target_bpm / sa.bpm) 4 ∧
      (rule_based_mix ⟨sa, sb, compute_compatibility sa sb⟩ ts mik sbi).mix_decision.song_b.tempo_stretch_factor
        = pyRound ((compute_compatibility sa sb).recommended_target_bpm / sb.bpm) 4) ∧
    (|sa.bpm - sb.bpm| ≤ 2 →
      (rule_based_mix ⟨sa, sb, compute_compatibility sa sb⟩ ts mik sbi).mix_decision.song_a.tempo_stretch_factor = 1 ∧
      (rule_based_mix ⟨sa, sb, compute_compatibility sa sb⟩ ts mik sbi).mix_decision.song_b.tempo_stretch_factor = 1) := by
  constructor
  · intro h
    have hflag : (compute_compatibility sa sb).needs_tempo_adjustment = true := by
      rw [compute_needs_flag]; exact decide_eq_true h
    constructor
    · rw [rule_based_mix_stretch_a]
      simp only [rb_stretch_a, hflag, if_true]
    · rw [rule_based_mix_stretch_b]
      simp only [rb_stretch_b, hflag, if_true]
  · intro h
    have hflag : (compute_compatibility sa sb).needs_tempo_adjustment = false := by
      rw [compute_needs_flag]; exact decide_eq_false (not_lt.mpr h)
    constructor
    · rw [rule_based_mix_stretch_a]
      simp only [rb_stretch_a, hflag, if_false]
      exact pyRound_one
    · rw [rule_based_mix_stretch_b]
      simp only [rb_stretch_b, hflag, if_false]
      exact pyRound_one

/-- C5 (witness): the amended stretch-factor theorem applied to the concrete
128/120 BPM pair, whose gap 8 exceeds 2. -/
theorem C5_witness :
    2 < |songA128.bpm - songB120.bpm| ∧
    (rule_based_mix ⟨songA128, songB120, compute_compatibility songA128 songB120⟩ none false none).mix_decision.song_a.tempo_stretch_factor
      = pyRound ((compute_compatibility songA128 songB120).recommended_target_bpm / songA128.bpm) 4 :=
  ⟨by decide, ((C5_stretch_factors songA128 songB120 none none false).1 (by decide)).1⟩

/-- C6 (counterexample): a valid contract (downbeat 100.15 ms within
duration 200.3 ms, positive target BPM) for which the emitted plan's rounded
out point (100.2) plus rounded total duration (100.2) exceeds song A's
duration 200.3, contradicting the claimed inequality on the emitted plan;
the excess is exactly 0.1 ms. -/
theorem C6_counterexample :
    (∀ d ∈ contractEdge.song_a.downbeats_ms,
        0 ≤ d ∧ d ≤ contractEdge.song_a.duration_ms) ∧
    0 < contractEdge.compatibility.recommended_target_bpm ∧
    ¬ ((rule_based_mix contractEdge none false none).mix_decision.song_a.out_point_ms.getD 0
        + (rule_based_mix contractEdge none false none).mix_decision.transition.total_duration_ms
        ≤ contractEdge.song_a.duration_ms) ∧
    (rule_based_mix contractEdge none false none).mix_decision.song_a.out_point_ms.getD 0
        + (rule_based_mix contractEdge none false none).mix_decision.transition.total_duration_ms
      = contractEdge.song_a.duration_ms + 1 / 10 := by
  decide

/-- C6 (amended): the pre-rounding transition duration is 8 bars of 4 beats
at the recommended target BPM in milliseconds, truncated to song A's
remainder on overflow, and the pre-rounding out point plus duration never
exceeds song A's duration; the emitted plan stores the out point (also as
the fade start) and the total duration rounded half-to-even to one decimal
digit, and the sum of the stored values can exceed song A's duration by at
most 0.1 ms (the counterexample attains exactly 0.1 ms). -/
theorem C6_transition_window (c : ContractA) (ts sbi : Option ℚ) (mik : Bool) :
    rb_out_point c ts + rb_transition_duration c ts ≤ c.song_a.duration_ms ∧
    rb_transition_duration c ts =
      (if rb_out_point c ts + 4 * 60000 / c.compatibility.recommended_target_bpm * 8
          > c.song_a.duration_ms
       then c.song_a.duration_ms - rb_out_point c ts
       else 4 * 60000 / c.compatibility.recommended_target_bpm * 8) ∧
    (rule_based_mix c ts mik sbi).mix_decision.transition.total_duration_ms =
      pyRound (rb_transition_duration c ts) 1 ∧
    (rule_based_mix c ts mik sbi).mix_decision.song_a.out_point_ms =
      some (pyRound (rb_out_point c ts) 1) ∧
    (rule_based_mix c ts mik sbi).mix_decision.song_a.fade_start_ms =
      some (pyRound (rb_out_point c ts) 1) ∧
    pyRound (rb_out_point c ts) 1 + pyRound (rb_transition_duration c ts) 1
      ≤ c.song_a.duration_ms + 1 / 10 := by
  have hsum : rb_out_point c ts + rb_transition_duration c ts ≤ c.song_a.duration_ms := by
    unfold rb_transition_duration
    split_ifs with h
    · linarith
    · linarith [not_lt.mp h]
  refine ⟨hsum, rfl, rfl, rfl, rfl, ?_⟩
  have h1 := pyRound_le_digit1 (rb_out_point c ts)
  have h2 := pyRound_le_digit1 (rb_transition_duration c ts)
  linarith

/-- C7: every rule-based plan's EQ automation is exactly one song A bass cut,
linear from 0 dB to -24 dB over the first half of the transition window in
absolute song A time, and one song B bass boost, linear from -24 dB to 0 dB
over the second half in time relative to song B's in point, with no mid or
high entries. -/
theorem C7_eq_automation (c : ContractA) (ts sbi : Option ℚ) (mik : Bool) :
    (rule_based_mix c ts mik sbi).mix_decision.transition.eq_automation =
      { song_a_bass := some
          { action := "cut"
            start_ms := rb_out_point c ts
            end_ms := rb_out_point c ts + rb_transition_duration c ts / 2
            from_db := 0
            to_db := -24
            curve := "linear" }
        song_b_bass := some
          { action := "boost"
            start_ms := rb_transition_duration c ts / 2
            end_ms := rb_transition_duration c ts
            from_db := -24
            to_db := 0
            curve := "linear" }
        song_a_highs := none
        song_b_highs := none
        song_a_mids := none
        song_b_mids := none } := rfl

/-- C8: the render returns an artifact exactly when the primary op sequence
or the fallback op sequence succeeds; any primary-path failure makes the
result that of the fallback render, whose operations re-extract song B from
its in point (when positive), crossfade with the fixed linear `tri` curve
over the plan's total duration and normalize-encode, with no EQ, stretch,
pitch or SFX operation. -/
theorem C8_render_fallback (exec : RenderOp → Bool) (cb : ContractB)
    (pa pb : String) (sfx_resolved : Bool) :
    (renderOk (render_mix exec cb pa pb sfx_resolved) = true ↔
      (renderOk (runOps exec (primary_ops cb.mix_decision pa pb sfx_resolved)) = true ∨
       renderOk (runOps exec (fallback_ops cb.mix_decision pa pb)) = true)) ∧
    (renderOk (runOps exec (primary_ops cb.mix_decision pa pb sfx_resolved)) = false →
      render_mix exec cb pa pb sfx_resolved
        = runOps exec (fallback_ops cb.mix_decision pa pb)) ∧
    (∀ op ∈ fallback_ops cb.mix_decision pa pb, isTransformExtraOp op = false) ∧
    RenderOp.crossfadeOp cb.mix_decision.transition.total_duration_ms "tri"
      ∈ fallback_ops cb.mix_decision pa pb ∧
    RenderOp.loudnormEncodeMp3 ∈ fallback_ops cb.mix_decision pa pb ∧
    (0 < pyOrQ cb.mix_decision.song_b.in_point_ms 0 →
      RenderOp.extractSegment "simple_b.wav" (pyOrQ cb.mix_decision.song_b.in_point_ms 0) none
        ∈ fallback_ops cb.mix_decision pa pb) := by
  refine ⟨?_, ?_, ?_, ?_, ?_, ?_⟩
  · unfold render_mix runOps renderOk
    by_cases h1 : (primary_ops cb.mix_decision pa pb sfx_resolved).all exec <;>
      by_cases h2 : (fallback_ops cb.mix_decision pa pb).all exec <;>
        simp [h1, h2]
  · intro hfail
    unfold runOps renderOk at hfail
    by_cases h1 : (primary_ops cb.mix_decision pa pb sfx_resolved).all exec
    · simp [h1] at hfail
    · unfold render_mix runOps
      simp [h1]
  · intro op hop
    by_cases hin : 0 < pyOrQ cb.mix_decision.song_b.in_point_ms 0
    · simp [fallback_ops, hin] at hop
      rcases hop with rfl | rfl | rfl | rfl | rfl <;> rfl
    · simp [fallback_ops, hin] at hop
      rcases hop with rfl | rfl | rfl | rfl <;> rfl
  · simp [fallback_ops]
  · simp [fallback_ops]
  · intro hin
    simp [fallback_ops, hin]

/-- C8 (witness): the render-fallback theorem applied to a concrete executor
oracle and the concrete rule-based plan for the 128/120 BPM pair. -/
theorem C8_witness :
    (renderOk (render_mix execAll sampleContractB "a.mp3" "b.mp3" true) = true ↔
      (renderOk (runOps execAll (primary_ops sampleContractB.mix_decision "a.mp3" "b.mp3" true)) = true ∨
       renderOk (runOps execAll (fallback_ops sampleContractB.mix_decision "a.mp3" "b.mp3")) = true)) ∧
    (0 < pyOrQ sampleContractB.mix_decision.song_b.in_point_ms 0 →
      RenderOp.extractSegment "simple_b.wav" (pyOrQ sampleContractB.mix_decision.song_b.in_point_ms 0) none
        ∈ fallback_ops sampleContractB.mix_decision "a.mp3" "b.mp3") :=
  ⟨(C8_render_fallback execAll sampleContractB "a.mp3" "b.mp3" true).1,
   (C8_render_fallback execAll sampleContractB "a.mp3" "b.mp3" true).2.2.2.2.2⟩

/-- C9: when a stretch factor other than 1 (and, being a BPM ratio, other
than 0) applies to song A, the original-tempo transition window is
`transitionDuration * sf`, song A's segment ends at the fade start plus that
window, and dividing the window by `sf` reproduces the transition duration
exactly. -/
theorem C9_stretch_inverse (trans_dur sa_sf fade_start : ℚ)
    (h1 : sa_sf ≠ 1) (h0 : sa_sf ≠ 0) :
    orig_trans_dur_a trans_dur sa_sf = trans_dur * sa_sf ∧
    seg_a_end_ms fade_start trans_dur sa_sf = fade_start + trans_dur * sa_sf ∧
    orig_trans_dur_a trans_dur sa_sf / sa_sf = trans_dur := by
  unfold seg_a_end_ms orig_trans_dur_a
  rw [if_pos h1]
  exact ⟨rfl, rfl, mul_div_cancel_right₀ trans_dur h0⟩

/-- C9 (witness): the inverse-transform theorem at the concrete stretch
factor 31/32, transition duration 15000 ms and fade start 180000 ms. -/
theorem C9_witness :
    ((31 : ℚ) / 32 ≠ 1) ∧ ((31 : ℚ) / 32 ≠ 0) ∧
    (orig_trans_dur_a 15000 (31 / 32) = 15000 * (31 / 32) ∧
     seg_a_end_ms 180000 15000 (31 / 32) = 180000 + 15000 * (31 / 32) ∧
     orig_trans_dur_a 15000 (31 / 32) / (31 / 32) = 15000) :=
  ⟨by decide, by decide, C9_stretch_inverse 15000 (31 / 32) 180000 (by decide) (by decide)⟩

/-- C10: with both key confidences at least 0.5 and a wheel distance equal to
the unknown sentinel -1 (an unrecognized code), `compute_compatibility`
reports `key_compatible = True`, because -1 ≤ 1. -/
theorem C10_unknown_code_key_compatible (sa sb : SongAnalysis)
    (ha : 1 / 2 ≤ sa.key_confidence) (hb : 1 / 2 ≤ sb.key_confidence)
    (hd : camelot_distance sa.camelot sb.camelot = -1) :
    (compute_compatibility sa sb).key_compatible = KeyCompat.ktrue := by
  simp only [compute_compatibility, hd]
  rw [if_neg, if_pos]
  · norm_num
  · push_neg
    exact ⟨ha, hb⟩

/-- C10 (witness): the unknown-code theorem applied to a song with wheel code
"?" and key confidence 0.8 against `songB120`. -/
theorem C10_witness :
    1 / 2 ≤ songUnknownKey.key_confidence ∧ 1 / 2 ≤ songB120.key_confidence ∧
    camelot_distance songUnknownKey.camelot songB120.camelot = -1 ∧
    (compute_compatibility songUnknownKey songB120).key_compatible = KeyCompat.ktrue :=
  ⟨by decide, by decide, by decide,
   C10_unknown_code_key_compatible songUnknownKey songB120 (by decide) (by decide) (by decide)⟩

end

end DJ
